import Mathlib

/-!
Verification development for the TradersGazette economic-calendar services.

Shallow embedding of the two Python sources:
  * `src/ingestor_main.py` — the ECB SDMX-JSON observation decoder
    (`fetch_ecb_data`), the FRED fetch adapter (`fetch_fred_data`), the GCS
    upload helper and the ingestion orchestrator (`ingest_economic_data`);
  * `src/api_main.py` — the query endpoint (`get_us_economic_data`) with its
    in-process TTL cache.

Modelling conventions:
  * Python dicts are insertion-ordered association lists; `dict.get` is
    `List.lookup` (first match).
  * Python floats are `PyFloat` values — finite (exact rational; IEEE-754
    rounding is abstracted, no code path computes with a value), infinity, or
    NaN; `float(...)` is modelled by `pyFloat` / `pyFloatVal`, which return
    `none` exactly when the Python call raises (`float("nan")` succeeds and
    yields NaN).
  * A Python exception that escapes to a caller is an `Except.error` carrying
    the exception kind (`PyErr`); code paths that catch exceptions convert the
    `error` back to the value the handler returns.
  * Python `list.sort(key=...)` is a stable sort; stable sorts by the same key
    are extensionally equal, so it is modelled by `List.insertionSort`.
-/

/-- The Python exception kinds relevant to the sources' handlers
(`except (KeyError, IndexError, ValueError, TypeError)` in `fetch_ecb_data`;
uncaught exceptions elsewhere). -/
inductive PyErr where
  | indexError
  | keyError
  | valueError
  | typeError
  deriving DecidableEq

/-- A JSON scalar as it can appear in a value-table entry of the ECB response:
a number, a string, or `null`. -/
inductive JVal where
  | num (q : ℚ)
  | str (s : String)
  | null
  deriving DecidableEq

/-- Numeric value of a digit list (most significant first). -/
def digitsVal (cs : List Char) : Nat :=
  cs.foldl (fun n c => n * 10 + (c.toNat - 48)) 0

/-- Every character is a decimal digit. -/
def allDigits (cs : List Char) : Bool :=
  cs.all fun c => c.isDigit

/-- Model of Python `int(s)`: optional sign followed by at least one decimal
digit; `none` models the `ValueError` raised otherwise. -/
def pyIntStr (s : String) : Option Int :=
  match s.data with
  | [] => none
  | '-' :: rest =>
      if !rest.isEmpty && allDigits rest then some (-(digitsVal rest : Int)) else none
  | '+' :: rest =>
      if !rest.isEmpty && allDigits rest then some ((digitsVal rest : Int)) else none
  | cs =>
      if allDigits cs then some ((digitsVal cs : Int)) else none

/-- A Python `float` value as the program can carry it: a finite value (an
exact rational — IEEE-754 rounding to 64 bits is abstracted; no code path
computes with a value), a signed infinity, or NaN. -/
inductive PyFloat where
  | fin (q : ℚ)
  | inf (neg : Bool)
  | nan
  deriving DecidableEq

/-- ASCII whitespace accepted around a Python float literal (`float(" 1 ")`
parses; code points 11 and 12 are vertical tab and form feed). -/
def isPySpace (c : Char) : Bool :=
  c = ' ' || c = '\t' || c = '\n' || c = '\r' || c.toNat = 11 || c.toNat = 12

/-- Strip leading and trailing whitespace. -/
def stripWs (cs : List Char) : List Char :=
  ((cs.dropWhile isPySpace).reverse.dropWhile isPySpace).reverse

/-- Tail of a Python digit run: digits with single grouping underscores
strictly between digits. -/
def digitPartTail : List Char → Bool
  | [] => true
  | ['_'] => false
  | '_' :: c :: rest => c.isDigit && digitPartTail rest
  | c :: rest => c.isDigit && digitPartTail rest

/-- A Python `digitpart`: non-empty, starts with a digit, underscores only
between digits (`"1_000"` yes; `""`, `"_1"`, `"1_"`, `"1__2"` no). -/
def digitPartOk : List Char → Bool
  | [] => false
  | c :: rest => c.isDigit && digitPartTail rest

/-- Split a float literal body at the first `e`/`E` (`none`: no exponent). -/
def splitAtExp (body : List Char) : List Char × Option (List Char) :=
  (body.takeWhile (fun c => c ≠ 'e' && c ≠ 'E'),
   match body.dropWhile (fun c => c ≠ 'e' && c ≠ 'E') with
   | [] => none
   | _ :: r => some r)

/-- Split a mantissa at the first dot (`none`: no dot at all). -/
def splitAtDot (m : List Char) : List Char × Option (List Char) :=
  (m.takeWhile (fun c => c ≠ '.'),
   match m.dropWhile (fun c => c ≠ '.') with
   | [] => none
   | _ :: f => some f)

/-- Validity of the mantissa: at least one digit and every present digit run
well formed (`"1"`, `"1."`, `".5"`, `"1.5"` yes; `"."`, `"_1"`, `"1_."`,
`"._5"` no). -/
def mantissaOk (ip : List Char) (fp : Option (List Char)) : Bool :=
  match fp with
  | none => digitPartOk ip
  | some f =>
    match ip, f with
    | [], [] => false
    | [], f' => digitPartOk f'
    | i, [] => digitPartOk i
    | i, f' => digitPartOk i && digitPartOk f'

/-- Optional sign and digit run of an exponent part. -/
def expSign : List Char → Option (List Char × Bool)
  | '+' :: r => if digitPartOk r then some (r, false) else none
  | '-' :: r => if digitPartOk r then some (r, true) else none
  | r => if digitPartOk r then some (r, false) else none

/-- Exact value of a parsed decimal literal: sign, mantissa digits with
underscores removed, fraction length `k` and decimal exponent `e` give
`± digits · 10 ^ (e - k)`. -/
def decValue (neg : Bool) (ds : List Char) (k : Nat) (e : Int) : ℚ :=
  (if neg then -1 else 1) * (digitsVal ds : ℚ) * (10 : ℚ) ^ (e - (k : Int))

/-- Parse the body of a Python float literal after sign removal:
case-insensitive `inf`/`infinity`/`nan`, or a decimal literal with optional
fraction, exponent and grouping underscores. -/
def pyFloatBody (neg : Bool) (body : List Char) : Option PyFloat :=
  if body.map Char.toLower = ['i', 'n', 'f'] ∨
      body.map Char.toLower = ['i', 'n', 'f', 'i', 'n', 'i', 't', 'y'] then
    some (.inf neg)
  else if body.map Char.toLower = ['n', 'a', 'n'] then
    some .nan
  else
    match splitAtExp body with
    | (mant, expPart) =>
      match splitAtDot mant with
      | (ip, fp) =>
        if mantissaOk ip fp then
          match expPart with
          | none =>
            some (.fin (decValue neg ((ip ++ fp.getD []).filter (fun c => c ≠ '_'))
              ((fp.getD []).filter (fun c => c ≠ '_')).length 0))
          | some ex =>
            match expSign ex with
            | none => none
            | some (eds, eneg) =>
              some (.fin (decValue neg ((ip ++ fp.getD []).filter (fun c => c ≠ '_'))
                ((fp.getD []).filter (fun c => c ≠ '_')).length
                (if eneg then -(digitsVal (eds.filter (fun c => c ≠ '_')) : Int)
                 else (digitsVal (eds.filter (fun c => c ≠ '_')) : Int))))
        else none

/-- Model of Python `float(s)` on a string: strip surrounding whitespace, take
an optional sign, then a case-insensitive `inf`/`infinity`/`nan` or a decimal
literal with optional fraction, exponent and digit-grouping underscores —
`float("nan")` succeeds and yields NaN. `none` models the `ValueError` raised
otherwise. (Scope: ASCII digits and whitespace, as all the program's inputs
are.) -/
def pyFloatVal (s : String) : Option PyFloat :=
  match stripWs s.data with
  | '-' :: rest => pyFloatBody true rest
  | '+' :: rest => pyFloatBody false rest
  | cs => pyFloatBody false cs

/-- Model of Python `float(v)` on a JSON scalar: numbers convert exactly,
strings parse via `pyFloatVal`, `null` raises `TypeError`. -/
def pyFloat : JVal → Option PyFloat
  | .num q => some (.fin q)
  | .str s => pyFloatVal s
  | .null => none

/-- The exception kind Python `float(v)` raises when it fails:
`TypeError` for `None`, `ValueError` for a bad string. -/
def pyFloatErr : JVal → PyErr
  | .null => .typeError
  | _ => .valueError

/-- Python `l[0]` (`IndexError` on an empty list). -/
def pyHead : List α → Except PyErr α
  | [] => .error .indexError
  | a :: _ => .ok a

/-- Python list subscript `l[i]` with negative-index wrap-around
(`IndexError` outside `[-len l, len l)`). -/
def pyListGet (l : List α) (i : Int) : Except PyErr α :=
  let j := if i < 0 then i + l.length else i
  if j < 0 then .error .indexError
  else
    match l.get? j.toNat with
    | some a => .ok a
    | none => .error .indexError

/-- First colon-delimited segment of a dimension-index key,
Python `s.split(":")[0]`. -/
def firstSegment (s : String) : String :=
  ⟨s.data.takeWhile (fun c => c ≠ ':')⟩

/-- Lexicographic comparison of character lists by code point: the order
Python's `<=` puts on strings, used by `sort(key=lambda x: x['date'])`. -/
def strLeb : List Char → List Char → Bool
  | [], _ => true
  | _ :: _, [] => false
  | a :: as, b :: bs => if a = b then strLeb as bs else decide (a < b)

/-- Python string `<=` on the two date labels. -/
def pyStrLe (a b : String) : Bool := strLeb a.data b.data

/-- Python `s.lower()` (character-wise; the catalog names are ASCII). -/
def pyLower (s : String) : String := ⟨s.data.map Char.toLower⟩

/-! ## Data model of the ECB SDMX-JSON response (decoder input) -/

/-- An observation point as built by `fetch_ecb_data`
(ingestor_main.py lines 158-164). -/
structure EcbPoint where
  date : String
  value : PyFloat
  flow_ref : String
  key_values : String
  source : String
  deriving DecidableEq

/-- One `series` entry of a dataset: its `observations` map, an
insertion-ordered association list from dimension-index key (e.g. `"3:0:0:0:0"`)
to the value-index reference list. -/
structure EcbSeries where
  observations : List (String × List Int)
  deriving DecidableEq

/-- One `dataSets` entry: the `series` map (`.get('series', {})`, so an absent
key and an empty map coincide as `[]`) and the flat `observations` value table;
`none` models a dataset object without an `'observations'` key, whose subscript
access at line 143 raises `KeyError`. -/
structure EcbDataSet where
  series : List (String × EcbSeries)
  observations : Option (List (String × List JVal))
  deriving DecidableEq

/-- The decoder's raw input, the parsed JSON response body.
`dataSets` models `data.get('dataSets', [])` (absent key and empty list
coincide). `timeValues` models the time labels
`data['structure']['dimensions']['observation'][0]['values'][i]['name']`;
`none` models an input where that path is missing, so that touching it
(line 152) raises `KeyError`. -/
structure EcbRawInput where
  dataSets : List EcbDataSet
  timeValues : Option (List String)
  deriving DecidableEq

/-- Access to the structure's time-dimension labels (line 152/156); `KeyError`
when the path is absent. -/
def getTimeValues (raw : EcbRawInput) : Except PyErr (List String) :=
  match raw.timeValues with
  | some vs => .ok vs
  | none => .error .keyError

/-- Access to `data_sets[0]['observations']` (line 143); `KeyError` when the
key is absent. -/
def getValueTable (ds : EcbDataSet) : Except PyErr (List (String × List JVal)) :=
  match ds.observations with
  | some vt => .ok vt
  | none => .error .keyError

/-! ## The observation decoder (`fetch_ecb_data`, ingestor_main.py 108-176) -/

/-- Decode one observation entry, following lines 141-164 in source order:
`obs_val_index_list[0]`; value-table lookup with a falsy skip (`continue`);
`int` of the first colon segment of the key; the bounds check against the
structure's time-value list with a skip; label resolution; `float(value)` on
append. `ok none` is a `continue`, `ok (some p)` an appended point, `error e`
an exception escaping to the handler at line 168. -/
def decodeObservation (raw : EcbRawInput) (ds : EcbDataSet) (fr kv : String)
    (obsKey : String) (valIdxList : List Int) : Except PyErr (Option EcbPoint) :=
  match pyHead valIdxList with
  | .error e => .error e
  | .ok actualValueIndex =>
    match getValueTable ds with
    | .error e => .error e
    | .ok vt =>
      match vt.lookup (toString actualValueIndex) with
      | none => .ok none
      | some [] => .ok none
      | some (value :: _) =>
        match pyIntStr (firstSegment obsKey) with
        | none => .error .valueError
        | some timeIdx =>
          match getTimeValues raw with
          | .error e => .error e
          | .ok timeVals =>
            if (timeVals.length : Int) ≤ timeIdx then .ok none
            else
              match pyListGet timeVals timeIdx with
              | .error e => .error e
              | .ok dateLabel =>
                match pyFloat value with
                | none => .error (pyFloatErr value)
                | some v => .ok (some ⟨dateLabel, v, fr, kv, "ECB"⟩)

/-- Decode the observation list of one series (the loop at lines 141-164),
accumulating the emitted points in iteration order; an escaped exception
aborts the whole loop. -/
def decodeObsList (raw : EcbRawInput) (ds : EcbDataSet) (fr kv : String) :
    List (String × List Int) → Except PyErr (List EcbPoint)
  | [] => .ok []
  | (k, vl) :: rest =>
    match decodeObservation raw ds fr kv k vl with
    | .error e => .error e
    | .ok none => decodeObsList raw ds fr kv rest
    | .ok (some p) =>
      match decodeObsList raw ds fr kv rest with
      | .error e => .error e
      | .ok ps => .ok (p :: ps)

/-- Decode every series of the first dataset (lines 135-164); a series whose
observations map is falsy (empty) is skipped with a warning (line 137-139). -/
def decodeSeriesList (raw : EcbRawInput) (ds : EcbDataSet) (fr kv : String) :
    List (String × EcbSeries) → Except PyErr (List EcbPoint)
  | [] => .ok []
  | (_, sv) :: rest =>
    match sv.observations with
    | [] => decodeSeriesList raw ds fr kv rest
    | o :: os =>
      match decodeObsList raw ds fr kv (o :: os) with
      | .error e => .error e
      | .ok ps =>
        match decodeSeriesList raw ds fr kv rest with
        | .error e => .error e
        | .ok qs => .ok (ps ++ qs)

/-- The ascending date sort of line 165
(`processed_data.sort(key=lambda x: x['date'])`); Python's sort is stable, so
it is modelled by the stable `insertionSort` under Python's string order. -/
def sortPoints (l : List EcbPoint) : List EcbPoint :=
  l.insertionSort (fun a b => pyStrLe a.date b.date = true)

/-- The SDMX-JSON parsing block of `fetch_ecb_data` (lines 122-167) before its
exception handler: structural failures (no `dataSets`, line 125-128; no
`series` in the first dataset, line 130-133) return `[]` directly; a parse
exception escapes as `error` to be caught at line 168. -/
def parseEcbResponse (raw : EcbRawInput) (fr kv : String) :
    Except PyErr (List EcbPoint) :=
  match raw.dataSets with
  | [] => .ok []
  | ds :: _ =>
    match ds.series with
    | [] => .ok []
    | _ =>
      match decodeSeriesList raw ds fr kv ds.series with
      | .error e => .error e
      | .ok ps => .ok (sortPoints ps)

/-- `fetch_ecb_data` on a successfully fetched and JSON-decoded response body
(lines 118-171): the `except (KeyError, IndexError, ValueError, TypeError)`
handler at line 168 turns any escaped parse exception into a plain `[]`. -/
def fetch_ecb_body (raw : EcbRawInput) (fr kv : String) : List EcbPoint :=
  match parseEcbResponse raw fr kv with
  | .ok ps => ps
  | .error _ => []

/-- Outcome of the HTTP fetch inside `fetch_ecb_data`: a network/HTTP error
(`requests.exceptions.RequestException`, caught at line 173) or a parsed JSON
body. -/
inductive EcbHttp where
  | requestError
  | ok (raw : EcbRawInput)

/-- `fetch_ecb_data` (ingestor_main.py 108-176) as a function of the HTTP
outcome: a request error returns `[]` (line 173-176), otherwise the response
body is parsed. -/
def fetch_ecb_data (h : EcbHttp) (fr kv : String) : List EcbPoint :=
  match h with
  | .requestError => []
  | .ok raw => fetch_ecb_body raw fr kv

/-- The typed decode errors the specification postulates (§4.1 steps 1-2, §7). -/
inductive DecodeError where
  | EmptyDataset
  | NoSeries
  deriving DecidableEq

/-- Follows the spec's words (§4.1 steps 1-2): "Fail with `DecodeError{EmptyDataset}`
if no dataset entries are present. Select the first dataset entry; fail with
`DecodeError{NoSeries}` if it carries no series map." Stated only to compare the
spec's claimed error contract with the code's actual behaviour on structural
failures. -/
def specStructuralCheck (raw : EcbRawInput) : Except DecodeError Unit :=
  match raw.dataSets with
  | [] => .error .EmptyDataset
  | ds :: _ =>
    match ds.series with
    | [] => .error .NoSeries
    | _ => .ok ()

/-! ## The FRED fetch adapter (`fetch_fred_data`, ingestor_main.py 67-106) -/

/-- One raw FRED observation as accessed by the source: its `date` and `value`
fields (FRED serves values as strings, with `"."` as the missing-value
placeholder). -/
structure FredObs where
  date : String
  value : String
  deriving DecidableEq

/-- A processed FRED point (ingestor_main.py lines 92-97). -/
structure FredPoint where
  date : String
  value : PyFloat
  series_id : String
  source : String
  deriving DecidableEq

/-- Outcome of the FRED HTTP fetch: a network/HTTP error
(`requests.exceptions.RequestException`, caught at line 100), a JSON decode
error (caught at line 103), or the `observations` array of the body. -/
inductive FredHttp where
  | requestError
  | jsonError
  | ok (observations : List FredObs)

/-- The processing loop at lines 90-97: observations whose value is the
literal `"."` placeholder are filtered out; every other value goes through
`float(...)`, whose `ValueError` is caught by no handler in the function and
escapes. -/
def fredObsLoop (sid : String) : List FredObs → Except PyErr (List FredPoint)
  | [] => .ok []
  | o :: rest =>
    if o.value = "." then fredObsLoop sid rest
    else
      match pyFloatVal o.value with
      | none => .error .valueError
      | some v =>
        match fredObsLoop sid rest with
        | .error e => .error e
        | .ok ps => .ok (⟨o.date, v, sid, "FRED"⟩ :: ps)

/-- `fetch_fred_data` (ingestor_main.py 67-106): with no API key it returns
`[]` (line 69-71); a request or JSON error returns `[]` (lines 100-106); an
unparsable (non-placeholder) value string raises an uncaught `ValueError`. -/
def fetch_fred_data (apiKeySet : Bool) (h : FredHttp) (sid : String) :
    Except PyErr (List FredPoint) :=
  if !apiKeySet then .ok []
  else
    match h with
    | .requestError => .ok []
    | .jsonError => .ok []
    | .ok obs => fredObsLoop sid obs

/-! ## The ingestion orchestrator (`ingest_economic_data`, ingestor_main.py 180-226) -/

/-- Per-key status record of the ingestion summary. -/
inductive IngestStatus where
  | success (count : Nat) (gcs_path : String)
  | failed_upload (message : String)
  | failed_fetch (message : String)
  deriving DecidableEq

/-- The environment the orchestrator runs against: configuration flags, the
HTTP outcomes of the two source APIs and the per-filename GCS upload outcome. -/
structure IngestEnv where
  fredApiKeySet : Bool
  gcsBucketSet : Bool
  fredHttp : String → FredHttp
  ecbHttp : String → String → EcbHttp
  uploadOk : String → Bool

/-- The module-level `FRED_SERIES` catalog (ingestor_main.py 25-28). -/
def FRED_SERIES : List (String × String) :=
  [("US_UNEMPLOYMENT_RATE", "UNRATE"), ("US_CPI", "CPIAUCSL")]

/-- The module-level `ECB_SERIES` catalog (ingestor_main.py 33-44):
name, flow_ref, key_values. -/
def ECB_SERIES : List (String × String × String) :=
  [("EU_HICP", "ICP", "M.U2.N.000000.4.ANR"),
   ("EU_EUR_USD_FX_RATE", "EXR", "D.USD.EUR.SP00.A")]

/-- `upload_to_gcs` (ingestor_main.py 49-65): `false` without a bucket name,
otherwise the outcome of the upload (any exception is caught and becomes
`false`). -/
def upload_to_gcs (env : IngestEnv) (filename : String) : Bool :=
  if !env.gcsBucketSet then false else env.uploadOk filename

/-- The GCS path of a FRED catalog entry (line 204). -/
def fredPath (name : String) : String :=
  "economic_data/fred/" ++ pyLower name ++ ".json"

/-- The GCS path of an ECB catalog entry (line 217). -/
def ecbPath (name : String) : String :=
  "economic_data/ecb/" ++ pyLower name ++ ".json"

/-- Lines 203-210: the summary record and the successful write (if any) for
one FRED catalog entry, given the fetched data; `if data:` is falsy for an
empty list, so zero fetched points are recorded as a fetch failure and no
upload is attempted. -/
def fredKeyStep (env : IngestEnv) (name : String) (data : List FredPoint) :
    IngestStatus × List String :=
  match data with
  | [] => (.failed_fetch ("No data fetched from FRED for " ++ name ++ " or API error."), [])
  | _ :: _ =>
    if upload_to_gcs env (fredPath name) then
      (.success data.length (fredPath name), [fredPath name])
    else
      (.failed_upload "GCS upload failed.", [])

/-- Lines 216-223: the summary record and the successful write (if any) for
one ECB catalog entry, given the fetched data. -/
def ecbKeyStep (env : IngestEnv) (name : String) (data : List EcbPoint) :
    IngestStatus × List String :=
  match data with
  | [] => (.failed_fetch ("No data fetched from ECB for " ++ name ++ " or API error."), [])
  | _ :: _ =>
    if upload_to_gcs env (ecbPath name) then
      (.success data.length (ecbPath name), [ecbPath name])
    else
      (.failed_upload "GCS upload failed.", [])

/-- The FRED half of the orchestrator loop (lines 200-210). The first
component is the summary so far, or the exception that escaped
`fetch_fred_data`; the second component records the successful GCS writes made
before any abort. -/
def fredLoop (env : IngestEnv) : List (String × String) →
    Except PyErr (List (String × IngestStatus)) × List String
  | [] => (.ok [], [])
  | (name, sid) :: rest =>
    match fetch_fred_data env.fredApiKeySet (env.fredHttp sid) sid with
    | .error e => (.error e, [])
    | .ok data =>
      let sw := fredKeyStep env name data
      let rw := fredLoop env rest
      (match rw.1 with
       | .error e => .error e
       | .ok sts => .ok ((name, sw.1) :: sts),
       sw.2 ++ rw.2)

/-- The ECB half of the orchestrator loop (lines 213-223); `fetch_ecb_data`
catches its own exceptions, so this loop never raises. -/
def ecbLoop (env : IngestEnv) : List (String × String × String) →
    List (String × IngestStatus) × List String
  | [] => ([], [])
  | (name, fr, kv) :: rest =>
    let data := fetch_ecb_data (env.ecbHttp fr kv) fr kv
    let sw := ecbKeyStep env name data
    let rw := ecbLoop env rest
    ((name, sw.1) :: rw.1, sw.2 ++ rw.2)

/-- `ingest_economic_data` (ingestor_main.py 180-226) on a POST request.
`ok summary` models the HTTP-200 `{"ingestion_summary": ...}` response with
its insertion-ordered per-key records; `error e` models an exception escaping
the handler (Flask then answers HTTP 500, not 200). The second component
records the successful GCS writes performed, including those made before an
abort. -/
def ingest_economic_data (env : IngestEnv) :
    Except PyErr (List (String × IngestStatus)) × List String :=
  match (fredLoop env FRED_SERIES).1 with
  | .error e => (.error e, (fredLoop env FRED_SERIES).2)
  | .ok fredSummary =>
    (.ok (fredSummary ++ (ecbLoop env ECB_SERIES).1),
     (fredLoop env FRED_SERIES).2 ++ (ecbLoop env ECB_SERIES).2)

/-! ## The query service (`api_main.py`) -/

/-- One item of a stored FRED blob, as written by the ingestor and read back
by the query service. -/
structure GcsItem where
  date : String
  value : PyFloat
  series_id : String
  source : String
  deriving DecidableEq

/-- A stored item after the metadata annotation of api_main.py lines 107-112. -/
structure UsItem where
  date : String
  value : PyFloat
  series_id : String
  source : String
  indicator_name : String
  unit : String
  frequency : String
  country : String
  currency : String
  deriving DecidableEq

/-- Catalog metadata of one entry of `FRED_SERIES_MAP` (api_main.py 25-39). -/
structure SeriesInfo where
  series_id : String
  name : String
  unit : String
  frequency : String
  deriving DecidableEq

/-- The module-level `FRED_SERIES_MAP` catalog of api_main.py (lines 25-39),
in insertion order. -/
def FRED_SERIES_MAP : List (String × SeriesInfo) :=
  [("us_unemployment_rate", ⟨"UNRATE", "Unemployment Rate", "%", "Monthly"⟩),
   ("us_cpi_all_items", ⟨"CPIAUCSL", "CPI (All Items)", "Index", "Monthly"⟩),
   ("us_gdp", ⟨"GDP", "Gross Domestic Product", "Billions of Dollars", "Quarterly"⟩),
   ("us_fed_funds_rate", ⟨"FEDFUNDS", "Fed Funds Rate", "%", "Daily"⟩),
   ("us_retail_sales", ⟨"RSXFS", "Retail Sales Ex. Food Services", "Billions of Dollars", "Monthly"⟩),
   ("us_manufacturing_pmi_ism", ⟨"NAPM", "ISM Manufacturing PMI", "Index", "Monthly"⟩),
   ("us_trade_balance", ⟨"BOPASTB", "Trade Balance", "Millions of Dollars", "Monthly"⟩),
   ("us_housing_starts", ⟨"HOUST", "Housing Starts", "Thousands of Units", "Monthly"⟩),
   ("us_consumer_confidence", ⟨"CONFCERT", "Consumer Confidence", "Index", "Monthly"⟩),
   ("us_average_hourly_earnings_mom", ⟨"CES0500000003", "Avg. Hourly Earnings (MoM)", "%", "Monthly"⟩),
   ("us_nonfarm_payrolls", ⟨"PAYEMS", "Nonfarm Payrolls", "Thousands", "Monthly"⟩),
   ("us_initial_jobless_claims", ⟨"ICSA", "Initial Jobless Claims", "Thousands", "Weekly"⟩),
   ("us_continuing_jobless_claims", ⟨"CCSA", "Continuing Jobless Claims", "Thousands", "Weekly"⟩)]

/-- Lines 107-112: attach catalog metadata and the fixed country/currency tags
to one stored item. -/
def annotateItem (info : SeriesInfo) (it : GcsItem) : UsItem :=
  ⟨it.date, it.value, it.series_id, it.source, info.name, info.unit, info.frequency, "US", "USD"⟩

/-- The guard at line 99: `if requested_indicator and requested_indicator != key`.
An absent parameter and the empty string are falsy, so they never skip. -/
def skipKey : Option String → String → Bool
  | none, _ => false
  | some s, key => if s = "" then false else if s = key then false else true

/-- The GCS filename a catalog key is read from (line 102). -/
def usFilename (key : String) : String :=
  "economic_data/fred/" ++ pyLower key ++ ".json"

/-- The accumulation loop of lines 97-115 over the catalog map, given the blob
store contents (`none` is an absent or unreadable blob; an empty stored list
is falsy at line 105 and is skipped like a missing one). -/
def collectUsData (blob : String → Option (List GcsItem)) (ind : Option String) :
    List (String × SeriesInfo) → List UsItem
  | [] => []
  | (key, info) :: rest =>
    if skipKey ind key then collectUsData blob ind rest
    else
      match blob (usFilename key) with
      | none => collectUsData blob ind rest
      | some [] => collectUsData blob ind rest
      | some (i :: is) => (i :: is).map (annotateItem info) ++ collectUsData blob ind rest

/-- The response envelope of the query endpoint. -/
structure UsResponse where
  status : String
  data : List UsItem
  deriving DecidableEq

/-- One entry of the in-process cache (api_main.py 17-21). -/
structure CacheEntry where
  data : UsResponse
  expiry : Nat
  deriving DecidableEq

/-- `CACHE_TTL_SECONDS` (api_main.py line 21). -/
def CACHE_TTL_SECONDS : Nat := 3600

/-- `get_cached_data` (api_main.py 63-69): the entry's data when present and
unexpired, `None` otherwise. -/
def get_cached_data (cache : List (String × CacheEntry)) (key : String) (now : Nat) :
    Option UsResponse :=
  match cache.lookup key with
  | some e => if now < e.expiry then some e.data else none
  | none => none

/-- `set_cached_data` (api_main.py 71-76): a dict overwrite, modelled by a
new binding that shadows any older one. -/
def set_cached_data (cache : List (String × CacheEntry)) (key : String)
    (d : UsResponse) (now : Nat) : List (String × CacheEntry) :=
  (key, ⟨d, now + CACHE_TTL_SECONDS⟩) :: cache

/-- The cache key of line 89: `f"us_data_{requested_indicator or 'all'}"`;
Python `or` replaces a falsy (absent or empty) filter with `'all'`. -/
def usCacheKey (ind : Option String) : String :=
  "us_data_" ++ (match ind with
    | none => "all"
    | some s => if s = "" then "all" else s)

/-- The descending date sort of line 118
(`all_us_data.sort(key=lambda x: x['date'], reverse=True)`), modelled by the
stable `insertionSort` on the reversed comparison. -/
def sortUsDesc (l : List UsItem) : List UsItem :=
  l.insertionSort (fun a b => pyStrLe b.date a.date = true)

/-- `get_us_economic_data` (api_main.py 80-124): the response returned and the
cache after the request. A cache hit (the cached response dict is always
truthy) is returned unchanged; a miss assembles, sorts, caches and returns the
fresh response. -/
def get_us_economic_data (blob : String → Option (List GcsItem))
    (cache : List (String × CacheEntry)) (now : Nat) (ind : Option String) :
    UsResponse × List (String × CacheEntry) :=
  match get_cached_data cache (usCacheKey ind) now with
  | some resp => (resp, cache)
  | none =>
    (⟨"success", sortUsDesc (collectUsData blob ind FRED_SERIES_MAP)⟩,
     set_cached_data cache (usCacheKey ind)
       ⟨"success", sortUsDesc (collectUsData blob ind FRED_SERIES_MAP)⟩ now)

/-- The caches reachable from the empty process-start cache by query-endpoint
invocations alone — `data_cache` is written nowhere else in api_main.py. -/
inductive ReachableCache : List (String × CacheEntry) → Prop
  | start : ReachableCache []
  | step (blob : String → Option (List GcsItem)) (now : Nat) (ind : Option String)
      (cache : List (String × CacheEntry)) : ReachableCache cache →
      ReachableCache (get_us_economic_data blob cache now ind).2

/-! ## Concrete inputs used by witnesses and counterexamples -/

/-- A raw input whose `dataSets` list is empty (the absent-key case coincides,
since `data.get('dataSets', [])` yields `[]` for both). -/
def rawEmptyDataset : EcbRawInput :=
  { dataSets := [], timeValues := some ["2023-M10"] }

/-- A raw input whose first dataset carries no series map. -/
def rawNoSeries : EcbRawInput :=
  { dataSets := [{ series := [], observations := some [] }],
    timeValues := some ["2023-M10"] }

/-- A structurally well-formed raw input that decodes successfully to zero
points: one series whose observations map is empty. -/
def rawEmptySuccess : EcbRawInput :=
  { dataSets := [{ series := [("S1", ⟨[]⟩)], observations := some [] }],
    timeValues := some ["2023-M10"] }

/-- A raw input with two in-bounds observations, the first of which carries a
value-table entry whose head is the string `s` and the second the number `q`:
the shape that separates per-observation skipping from batch-level aborting. -/
def rawBadValue (s : String) (q : ℚ) : EcbRawInput :=
  { dataSets := [{ series := [("S1", ⟨[("0:0:0:0:0", [0]), ("1:0:0:0:0", [1])]⟩)],
                   observations := some [("0", [.str s]), ("1", [.num q])] }],
    timeValues := some ["2023-M10", "2023-M11"] }

/-- The worked example of spec §8: three time labels, one series with
observations at time positions 0 and 2, value table `{"0":[3.1],"1":[3.4]}`. -/
def rawSpecExample : EcbRawInput :=
  { dataSets := [{ series := [("S1", ⟨[("0:0:0:0:0", [0]), ("2:0:0:0:0", [1])]⟩)],
                   observations := some [("0", [.num (3.1 : ℚ)]), ("1", [.num (3.4 : ℚ)])] }],
    timeValues := some ["2023-M10", "2023-M11", "2023-M12"] }

/-- Two raw FRED observations: one ordinary value and one `"."` placeholder. -/
def fredObsW : List FredObs := [⟨"2020-01-01", "5"⟩, ⟨"2020-02-01", "."⟩]

/-- The point the non-placeholder observation of `fredObsW` produces. -/
def fredPtW : FredPoint := ⟨"2020-01-01", .fin (decValue false ['5'] 0 0), "UNRATE", "FRED"⟩

/-- An ingestion environment in which the FRED response for `UNRATE` carries an
observation whose value string `"n/a"` is not the placeholder but cannot be
parsed as a float. -/
def envBadValue : IngestEnv :=
  { fredApiKeySet := true, gcsBucketSet := true,
    fredHttp := fun sid => if sid = "UNRATE" then FredHttp.ok [⟨"2020-01-01", "n/a"⟩]
                           else FredHttp.ok [⟨"2020-01-01", "2"⟩],
    ecbHttp := fun _ _ => EcbHttp.ok rawSpecExample,
    uploadOk := fun _ => true }

/-- An ingestion environment in which the `UNRATE` fetch fails at the HTTP
level (so the adapter returns no data) while every other key succeeds. -/
def envOneFailedFetch : IngestEnv :=
  { fredApiKeySet := true, gcsBucketSet := true,
    fredHttp := fun sid => if sid = "UNRATE" then FredHttp.requestError
                           else FredHttp.ok [⟨"2020-01-01", "2"⟩],
    ecbHttp := fun _ _ => EcbHttp.ok rawSpecExample,
    uploadOk := fun _ => true }

/-- A blob store holding one stored item for the first catalog key and nothing
else. -/
def blobOne : String → Option (List GcsItem) :=
  fun fn => if fn = "economic_data/fred/us_unemployment_rate.json"
            then some [⟨"2020-01-01", .fin (1 : ℚ), "UNRATE", "FRED"⟩] else none

/-! ## Theorems -/

/-- **C1, counterexample.** The claim says structural failures produce a typed
error value (`DecodeError{EmptyDataset}` / `DecodeError{NoSeries}`), "not an
ordinary empty point list". On the code, both structural-failure inputs make
`fetch_ecb_data` return the plain empty list — the very value a successful
decode with zero observations also returns — so no typed error value exists
and a caller cannot tell the two apart. The spec-modelled checker
`specStructuralCheck` shows what the claim demanded at the same inputs. -/
theorem C1_counterexample :
    specStructuralCheck rawEmptyDataset = .error .EmptyDataset ∧
    fetch_ecb_body rawEmptyDataset "ICP" "M.U2.N.000000.4.ANR" = [] ∧
    specStructuralCheck rawNoSeries = .error .NoSeries ∧
    fetch_ecb_body rawNoSeries "ICP" "M.U2.N.000000.4.ANR" = [] ∧
    specStructuralCheck rawEmptySuccess = .ok () ∧
    fetch_ecb_body rawEmptySuccess "ICP" "M.U2.N.000000.4.ANR" = [] :=
  ⟨rfl, rfl, rfl, rfl, rfl, rfl⟩

/-- **C1, amended.** For every raw input whose dataset list is empty or absent,
and for every input whose first dataset carries no series map, the decoder
logs a parsing error and returns the ordinary empty point list — the same
value a successful decode with zero observations returns; no typed error value
and no partial output is produced. -/
theorem C1_structural_empty (raw : EcbRawInput) (fr kv : String) :
    (raw.dataSets = [] → fetch_ecb_body raw fr kv = []) ∧
    (∀ ds rest, raw.dataSets = ds :: rest → ds.series = [] →
      fetch_ecb_body raw fr kv = []) := by
  constructor
  · intro h
    simp [fetch_ecb_body, parseEcbResponse, h]
  · intro ds rest hds hs
    simp [fetch_ecb_body, parseEcbResponse, hds, hs]

/-- Witness for `C1_structural_empty` at the concrete empty-dataset input. -/
theorem C1_structural_empty_witness :
    fetch_ecb_body rawEmptyDataset "ICP" "M.U2.N.000000.4.ANR" = [] :=
  (C1_structural_empty rawEmptyDataset "ICP" "M.U2.N.000000.4.ANR").1 rfl

/-- **C2, counterexample.** The claim says an observation whose value cannot be
parsed as a float is "failed locally" and the remaining observations "still
produce their points". On the code the `float(value)` call at line 160 is
covered by no per-observation handler: the `ValueError` escapes to the batch
handler at line 168, which returns `[]`. Here the first observation's value
`"abc"` is unparsable while the second (`3.4` at `"2023-M11"`) is perfectly
decodable, yet the whole batch yields no points at all. -/
theorem C2_counterexample :
    parseEcbResponse (rawBadValue "abc" (3.4 : ℚ)) "ICP" "KV" = .error .valueError ∧
    fetch_ecb_body (rawBadValue "abc" (3.4 : ℚ)) "ICP" "KV" = [] :=
  ⟨rfl, rfl⟩

/-- **C2, amended.** A per-observation floating-point parse failure is not
local: for every unparsable value string `s`, the raised `ValueError` is
caught only by the batch-level handler, so the entire decode aborts and
returns the empty list — the points of the remaining decodable observations
(here the one with value `q`) are lost. Only a missing or falsy value-table
entry and an out-of-bounds time index are skipped locally. -/
theorem C2_float_failure_aborts_batch (s : String) (q : ℚ) (fr kv : String)
    (hs : pyFloatVal s = none) :
    parseEcbResponse (rawBadValue s q) fr kv = .error .valueError ∧
    fetch_ecb_body (rawBadValue s q) fr kv = [] := by
  have k0 : (toString (0 : Int)) = "0" := rfl
  have a0 : allDigits ['0'] = true := rfl
  have h1 : parseEcbResponse (rawBadValue s q) fr kv = .error .valueError := by
    simp [parseEcbResponse, rawBadValue, decodeSeriesList, decodeObsList,
      decodeObservation, pyHead, getValueTable, getTimeValues, firstSegment,
      pyIntStr, pyListGet, pyFloat, pyFloatErr, hs, List.lookup, digitsVal, k0, a0]
  exact ⟨h1, by simp [fetch_ecb_body, h1]⟩

/-- Witness for `C2_float_failure_aborts_batch` at the unparsable string
`"oops"`. -/
theorem C2_float_failure_aborts_batch_witness :
    parseEcbResponse (rawBadValue "oops" (1 : ℚ)) "EXR" "D" = .error .valueError ∧
    fetch_ecb_body (rawBadValue "oops" (1 : ℚ)) "EXR" "D" = [] :=
  C2_float_failure_aborts_batch "oops" (1 : ℚ) "EXR" "D" rfl

/-- **C5.** On the spec's worked example — time values
`["2023-M10","2023-M11","2023-M12"]`, one series with observations
`{"0:0:0:0:0":[0], "2:0:0:0:0":[1]}` and value table `{"0":[3.1],"1":[3.4]}` —
the decoder returns exactly the two points `{date:"2023-M10", value:3.1}` and
`{date:"2023-M12", value:3.4}`, in that ascending order, for any provenance
tags. -/
theorem C5_worked_example (fr kv : String) :
    fetch_ecb_body rawSpecExample fr kv =
      [⟨"2023-M10", .fin (3.1 : ℚ), fr, kv, "ECB"⟩,
       ⟨"2023-M12", .fin (3.4 : ℚ), fr, kv, "ECB"⟩] := rfl

/-- **C6.** The decoder is deterministic: in the embedding it is a total pure
function of the raw input and the provenance tags (the source's parse path
reads only its arguments and local variables and mutates no module state), so
decoding the same input twice — and decoding any two equal inputs — yields
identical output, points, order and caught-error behaviour included. -/
theorem C6_deterministic (raw raw' : EcbRawInput) (fr kv : String) :
    fetch_ecb_body raw fr kv = fetch_ecb_body raw fr kv ∧
    parseEcbResponse raw fr kv = parseEcbResponse raw fr kv ∧
    (raw = raw' → fetch_ecb_body raw fr kv = fetch_ecb_body raw' fr kv) :=
  ⟨rfl, rfl, fun h => h ▸ rfl⟩

/-- Witness for `C6_deterministic` at the worked example input. -/
theorem C6_deterministic_witness :
    fetch_ecb_body rawSpecExample "ICP" "KV" = fetch_ecb_body rawSpecExample "ICP" "KV" :=
  (C6_deterministic rawSpecExample rawSpecExample "ICP" "KV").1

/-- Python's string order is total. -/
theorem strLeb_total (as bs : List Char) : strLeb as bs = true ∨ strLeb bs as = true := by
  induction as generalizing bs with
  | nil => left; rfl
  | cons a as ih =>
    cases bs with
    | nil => right; rfl
    | cons b bs =>
      by_cases hab : a = b
      · subst hab
        rcases ih bs with h | h
        · left; simpa [strLeb] using h
        · right; simpa [strLeb] using h
      · rcases lt_trichotomy a b with h | h | h
        · left; simp [strLeb, hab, h]
        · exact absurd h hab
        · right
          have hba : ¬b = a := fun e => hab e.symm
          simp [strLeb, hba, h]

/-- Python's string order is transitive. -/
theorem strLeb_trans (as bs cs : List Char) (h1 : strLeb as bs = true)
    (h2 : strLeb bs cs = true) : strLeb as cs = true := by
  induction as generalizing bs cs with
  | nil => rfl
  | cons a as ih =>
    cases bs with
    | nil => simp [strLeb] at h1
    | cons b bs =>
      cases cs with
      | nil => simp [strLeb] at h2
      | cons c cs =>
        by_cases hab : a = b
        · subst hab
          by_cases hac : a = c
          · subst hac
            simp only [strLeb, if_pos rfl] at h1 h2 ⊢
            exact ih bs cs h1 h2
          · simp only [strLeb, if_pos rfl] at h1
            simp only [strLeb, if_neg hac] at h2 ⊢
            exact h2
        · by_cases hbc : b = c
          · subst hbc
            simp only [strLeb, if_neg hab] at h1 ⊢
            exact h1
          · simp only [strLeb, if_neg hab] at h1
            simp only [strLeb, if_neg hbc] at h2
            have haclt : a < c := lt_trans (of_decide_eq_true h1) (of_decide_eq_true h2)
            have hac : ¬a = c := ne_of_lt haclt
            simp [strLeb, hac, haclt]

/-- The sort at line 165 always yields a list that is pairwise non-decreasing
under Python's string order on the date labels. -/
theorem sortPoints_sorted (l : List EcbPoint) :
    (sortPoints l).Pairwise (fun a b => pyStrLe a.date b.date = true) := by
  haveI : IsTotal EcbPoint (fun a b => pyStrLe a.date b.date = true) :=
    ⟨fun a b => strLeb_total a.date.data b.date.data⟩
  haveI : IsTrans EcbPoint (fun a b => pyStrLe a.date b.date = true) :=
    ⟨fun a b c => strLeb_trans a.date.data b.date.data c.date.data⟩
  exact List.sorted_insertionSort _ l

/-- **C4.** For every raw input on which the decoder succeeds (its parse block
completes without an escaped exception), the returned point list is pairwise
non-decreasing by the date label under Python's lexicographic string order —
the order `sort(key=lambda x: x['date'])` imposes. -/
theorem C4_output_sorted (raw : EcbRawInput) (fr kv : String) (pts : List EcbPoint)
    (h : parseEcbResponse raw fr kv = .ok pts) :
    pts.Pairwise (fun a b => pyStrLe a.date b.date = true) := by
  unfold parseEcbResponse at h
  split at h
  · cases h; exact List.Pairwise.nil
  · split at h
    · cases h; exact List.Pairwise.nil
    · split at h
      · cases h
      · cases h; exact sortPoints_sorted _

/-- Witness for `C4_output_sorted`: the worked example decodes successfully and
its two points are indeed in non-decreasing date order. -/
theorem C4_output_sorted_witness :
    List.Pairwise (fun a b : EcbPoint => pyStrLe a.date b.date = true)
      [⟨"2023-M10", .fin (3.1 : ℚ), "ICP", "KV", "ECB"⟩,
       ⟨"2023-M12", .fin (3.4 : ℚ), "ICP", "KV", "ECB"⟩] :=
  C4_output_sorted rawSpecExample "ICP" "KV" _ rfl

/-- An observation whose parsed leading index is at or past the end of the
structure's time-value list takes one of the three `ok none` exits of
`decodeObservation` — never an exception, never a point — provided its
reference list is non-empty and the value table exists (the paths that would
instead raise). -/
theorem decodeObservation_oob (raw : EcbRawInput) (ds : EcbDataSet) (fr kv : String)
    (obsKey : String) (i0 : Int) (idxTail : List Int) (tIdx : Int) (tv : List String)
    (vt : List (String × List JVal))
    (ht : raw.timeValues = some tv) (hvt : ds.observations = some vt)
    (hparse : pyIntStr (firstSegment obsKey) = some tIdx)
    (hoob : (tv.length : Int) ≤ tIdx) :
    decodeObservation raw ds fr kv obsKey (i0 :: idxTail) = .ok none := by
  unfold decodeObservation pyHead getValueTable getTimeValues
  rw [hvt, ht]
  cases hl : vt.lookup (toString i0) with
  | none => simp [hl]
  | some vl =>
    cases vl with
    | nil => simp [hl]
    | cons v vs => simp [hl, hparse, hoob]

/-- Removing an observation that decodes to `ok none` from an observation list
does not change the outcome of the list decode. -/
theorem decodeObsList_skip (raw : EcbRawInput) (ds : EcbDataSet) (fr kv : String)
    (pre post : List (String × List Int)) (k : String) (vl : List Int)
    (hskip : decodeObservation raw ds fr kv k vl = .ok none) :
    decodeObsList raw ds fr kv (pre ++ (k, vl) :: post) =
      decodeObsList raw ds fr kv (pre ++ post) := by
  induction pre with
  | nil => simp [decodeObsList, hskip]
  | cons x xs ih =>
    rcases x with ⟨k', vl'⟩
    simp only [List.cons_append, decodeObsList, List.append_eq]
    rw [ih]

/-- Evaluation form of `decodeSeriesList` on a cons cell: the falsy-skip of an
empty observations map coincides with decoding the empty list and prepending
no points. -/
theorem decodeSeriesList_cons_eval (raw : EcbRawInput) (ds : EcbDataSet) (fr kv : String)
    (sk : String) (obs : List (String × List Int)) (rest : List (String × EcbSeries)) :
    decodeSeriesList raw ds fr kv ((sk, ⟨obs⟩) :: rest) =
      (match decodeObsList raw ds fr kv obs with
       | .error e => .error e
       | .ok ps =>
         match decodeSeriesList raw ds fr kv rest with
         | .error e => .error e
         | .ok qs => .ok (ps ++ qs)) := by
  cases obs with
  | nil =>
    cases h : decodeSeriesList raw ds fr kv rest <;>
      simp [decodeSeriesList, decodeObsList, h]
  | cons o os => simp [decodeSeriesList]

/-- Removing an `ok none` observation from any series of the series list does
not change the outcome of the series-list decode. -/
theorem decodeSeriesList_skip (raw : EcbRawInput) (ds : EcbDataSet) (fr kv : String)
    (spre spost : List (String × EcbSeries)) (sk : String)
    (opre opost : List (String × List Int)) (k : String) (vl : List Int)
    (hskip : decodeObservation raw ds fr kv k vl = .ok none) :
    decodeSeriesList raw ds fr kv (spre ++ (sk, ⟨opre ++ (k, vl) :: opost⟩) :: spost) =
      decodeSeriesList raw ds fr kv (spre ++ (sk, ⟨opre ++ opost⟩) :: spost) := by
  induction spre with
  | nil =>
    simp only [List.nil_append]
    rw [decodeSeriesList_cons_eval, decodeSeriesList_cons_eval,
      decodeObsList_skip raw ds fr kv opre opost k vl hskip]
  | cons x xs ih =>
    rcases x with ⟨sk', sv'⟩
    rcases sv' with ⟨obs'⟩
    simp only [List.cons_append]
    rw [decodeSeriesList_cons_eval, decodeSeriesList_cons_eval, ih]

/-- `decodeObsList` reads nothing from `raw.dataSets` or `ds.series`: only the
time values and the value table matter. -/
theorem decodeObsList_irrel (l1 l2 : List EcbDataSet) (s1 s2 : List (String × EcbSeries))
    (vtOpt : Option (List (String × List JVal))) (tvOpt : Option (List String))
    (fr kv : String) (obs : List (String × List Int)) :
    decodeObsList ⟨l1, tvOpt⟩ ⟨s1, vtOpt⟩ fr kv obs =
      decodeObsList ⟨l2, tvOpt⟩ ⟨s2, vtOpt⟩ fr kv obs := by
  induction obs with
  | nil => rfl
  | cons x t ih =>
    rcases x with ⟨k, vl⟩
    simp only [decodeObsList]
    have hobs : decodeObservation ⟨l1, tvOpt⟩ ⟨s1, vtOpt⟩ fr kv k vl =
        decodeObservation ⟨l2, tvOpt⟩ ⟨s2, vtOpt⟩ fr kv k vl := rfl
    rw [hobs, ih]

/-- `decodeSeriesList` likewise depends only on the time values, the value
table and the list it walks. -/
theorem decodeSeriesList_irrel (l1 l2 : List EcbDataSet) (s1 s2 : List (String × EcbSeries))
    (vtOpt : Option (List (String × List JVal))) (tvOpt : Option (List String))
    (fr kv : String) (sl : List (String × EcbSeries)) :
    decodeSeriesList ⟨l1, tvOpt⟩ ⟨s1, vtOpt⟩ fr kv sl =
      decodeSeriesList ⟨l2, tvOpt⟩ ⟨s2, vtOpt⟩ fr kv sl := by
  induction sl with
  | nil => rfl
  | cons x t ih =>
    rcases x with ⟨sk, sv⟩
    rcases sv with ⟨obs⟩
    rw [decodeSeriesList_cons_eval, decodeSeriesList_cons_eval,
      decodeObsList_irrel l1 l2 s1 s2 vtOpt tvOpt fr kv obs, ih]

/-- Evaluation of the parse block on an input whose first dataset has a
non-empty series map, in constructor form. -/
theorem parseEcb_first_eval (s1 : String × EcbSeries) (srest : List (String × EcbSeries))
    (vtOpt : Option (List (String × List JVal))) (dsrest : List EcbDataSet)
    (tvOpt : Option (List String)) (fr kv : String) :
    parseEcbResponse ⟨⟨s1 :: srest, vtOpt⟩ :: dsrest, tvOpt⟩ fr kv =
      (match decodeSeriesList ⟨⟨s1 :: srest, vtOpt⟩ :: dsrest, tvOpt⟩
          ⟨s1 :: srest, vtOpt⟩ fr kv (s1 :: srest) with
       | .error e => .error e
       | .ok ps => .ok (sortPoints ps)) := rfl

/-- **C3.** An observation whose parsed time-dimension index `tIdx` is at or
past the length of the structure's time-value list is skipped — it decodes to
`ok none`, so no point is emitted for it — and decoding continues exactly as
if the observation were absent: the decoder's output on the input containing
the out-of-bounds observation (at any position of any series) equals its
output on the same input with that observation removed, so every remaining
observation still contributes its point. -/
theorem C3_oob_skipped
    (tv : List String) (vt : List (String × List JVal)) (dsrest : List EcbDataSet)
    (spre spost : List (String × EcbSeries)) (sk : String)
    (opre opost : List (String × List Int)) (obsKey : String)
    (i0 : Int) (idxTail : List Int) (tIdx : Int) (fr kv : String)
    (hparse : pyIntStr (firstSegment obsKey) = some tIdx)
    (hoob : (tv.length : Int) ≤ tIdx) :
    decodeObservation
      ⟨⟨spre ++ (sk, ⟨opre ++ (obsKey, i0 :: idxTail) :: opost⟩) :: spost, some vt⟩ :: dsrest, some tv⟩
      ⟨spre ++ (sk, ⟨opre ++ (obsKey, i0 :: idxTail) :: opost⟩) :: spost, some vt⟩
      fr kv obsKey (i0 :: idxTail) = .ok none ∧
    fetch_ecb_body
      ⟨⟨spre ++ (sk, ⟨opre ++ (obsKey, i0 :: idxTail) :: opost⟩) :: spost, some vt⟩ :: dsrest, some tv⟩
      fr kv =
    fetch_ecb_body
      ⟨⟨spre ++ (sk, ⟨opre ++ opost⟩) :: spost, some vt⟩ :: dsrest, some tv⟩ fr kv := by
  have hskip :
      decodeObservation
        ⟨⟨spre ++ (sk, ⟨opre ++ (obsKey, i0 :: idxTail) :: opost⟩) :: spost, some vt⟩ :: dsrest, some tv⟩
        ⟨spre ++ (sk, ⟨opre ++ (obsKey, i0 :: idxTail) :: opost⟩) :: spost, some vt⟩
        fr kv obsKey (i0 :: idxTail) = .ok none :=
    decodeObservation_oob _ _ fr kv obsKey i0 idxTail tIdx tv vt rfl rfl hparse hoob
  refine ⟨hskip, ?_⟩
  have hsl :
      decodeSeriesList
        ⟨⟨spre ++ (sk, ⟨opre ++ (obsKey, i0 :: idxTail) :: opost⟩) :: spost, some vt⟩ :: dsrest, some tv⟩
        ⟨spre ++ (sk, ⟨opre ++ (obsKey, i0 :: idxTail) :: opost⟩) :: spost, some vt⟩
        fr kv (spre ++ (sk, ⟨opre ++ (obsKey, i0 :: idxTail) :: opost⟩) :: spost) =
      decodeSeriesList
        ⟨⟨spre ++ (sk, ⟨opre ++ opost⟩) :: spost, some vt⟩ :: dsrest, some tv⟩
        ⟨spre ++ (sk, ⟨opre ++ opost⟩) :: spost, some vt⟩
        fr kv (spre ++ (sk, ⟨opre ++ opost⟩) :: spost) := by
    rw [decodeSeriesList_skip _ _ fr kv spre spost sk opre opost obsKey (i0 :: idxTail) hskip]
    exact decodeSeriesList_irrel _ _ _ _ _ _ fr kv _
  have hparseEq :
      parseEcbResponse
        ⟨⟨spre ++ (sk, ⟨opre ++ (obsKey, i0 :: idxTail) :: opost⟩) :: spost, some vt⟩ :: dsrest, some tv⟩
        fr kv =
      parseEcbResponse
        ⟨⟨spre ++ (sk, ⟨opre ++ opost⟩) :: spost, some vt⟩ :: dsrest, some tv⟩ fr kv := by
    cases spre with
    | nil =>
      simp only [List.nil_append] at hsl ⊢
      rw [parseEcb_first_eval, parseEcb_first_eval, hsl]
    | cons y ys =>
      simp only [List.cons_append] at hsl ⊢
      rw [parseEcb_first_eval, parseEcb_first_eval, hsl]
  unfold fetch_ecb_body
  rw [hparseEq]

/-- Witness for `C3_oob_skipped`: a concrete out-of-bounds observation
(`"5:0:0:0:0"` against a single time label) is skipped while the in-bounds
observation `"0:0:0:0:0"` still contributes its point. -/
theorem C3_oob_skipped_witness :
    pyIntStr (firstSegment "5:0:0:0:0") = some 5 ∧
    ((["2023-M10"].length : Nat) : Int) ≤ 5 ∧
    fetch_ecb_body
      ⟨⟨[("S1", ⟨[("5:0:0:0:0", [1]), ("0:0:0:0:0", [0])]⟩)], some [("0", [.num (1 : ℚ)]), ("1", [.num (2 : ℚ)])]⟩ :: [], some ["2023-M10"]⟩
      "ICP" "KV" =
    fetch_ecb_body
      ⟨⟨[("S1", ⟨[("0:0:0:0:0", [0])]⟩)], some [("0", [.num (1 : ℚ)]), ("1", [.num (2 : ℚ)])]⟩ :: [], some ["2023-M10"]⟩
      "ICP" "KV" :=
  ⟨rfl, by decide,
    (C3_oob_skipped ["2023-M10"] [("0", [.num (1 : ℚ)]), ("1", [.num (2 : ℚ)])] []
      [] [] "S1" [] [("0:0:0:0:0", [0])] "5:0:0:0:0" 1 [] 5 "ICP" "KV" rfl (by decide)).2⟩

/-- Every point an `fredObsLoop` run emits stems from a non-placeholder
observation of its input whose value string parses to exactly that point's
value. -/
theorem fredObsLoop_mem (sid : String) (l : List FredObs) (pts : List FredPoint)
    (h : fredObsLoop sid l = .ok pts) :
    ∀ p ∈ pts, ∃ o ∈ l, o.value ≠ "." ∧ o.date = p.date ∧
      pyFloatVal o.value = some p.value ∧ p.series_id = sid ∧ p.source = "FRED" := by
  induction l generalizing pts with
  | nil =>
    unfold fredObsLoop at h
    cases h
    intro p hp
    cases hp
  | cons o rest ih =>
    unfold fredObsLoop at h
    by_cases hv : o.value = "."
    · rw [if_pos hv] at h
      intro p hp
      obtain ⟨o', ho', hrest⟩ := ih pts h p hp
      exact ⟨o', List.mem_cons_of_mem _ ho', hrest⟩
    · rw [if_neg hv] at h
      cases hf : pyFloatVal o.value with
      | none => rw [hf] at h; cases h
      | some v =>
        rw [hf] at h
        cases hr : fredObsLoop sid rest with
        | error e => rw [hr] at h; cases h
        | ok ps =>
          rw [hr] at h
          cases h
          intro p hp
          cases hp with
          | head => exact ⟨o, List.mem_cons_self o rest, hv, rfl, hf, rfl, rfl⟩
          | tail _ hp' =>
            obtain ⟨o', ho', hrest⟩ := ih ps hr p hp'
            exact ⟨o', List.mem_cons_of_mem _ ho', hrest⟩

/-- **C9, counterexample.** The claim says no emitted point carries a NaN
value. But the only filter at line 91 is `obs['value'] != '.'`: the value
string `"nan"` passes it, `float("nan")` succeeds in Python and yields NaN
(here `pyFloatVal "nan" = some .nan`), and the point is appended — so the
adapter does emit a NaN-valued point. -/
theorem C9_counterexample :
    "nan" ≠ "." ∧
    pyFloatVal "nan" = some PyFloat.nan ∧
    fetch_fred_data true (FredHttp.ok [⟨"2020-03-01", "nan"⟩]) "UNRATE" =
      .ok [⟨"2020-03-01", PyFloat.nan, "UNRATE", "FRED"⟩] :=
  ⟨by decide, rfl, rfl⟩

/-- **C9, amended.** In the US-series fetch branch, every emitted point stems
from a raw observation whose value differs from the source's literal
missing-value placeholder `"."` — placeholder observations are filtered
before emission, so no emitted point carries the placeholder — and every
emitted point's value is exactly the floating-point parse of its raw value
string (finite values as exact rationals). The original no-NaN conjunct is
dropped: a value string such as `"nan"` passes the placeholder filter, parses
to NaN, and is emitted. -/
theorem C9_placeholder_filtered (k : Bool) (h : FredHttp) (sid : String)
    (pts : List FredPoint) (hok : fetch_fred_data k h sid = .ok pts) :
    ∀ p ∈ pts, ∃ l, h = FredHttp.ok l ∧ ∃ o ∈ l, o.value ≠ "." ∧ o.date = p.date ∧
      pyFloatVal o.value = some p.value ∧ p.series_id = sid ∧ p.source = "FRED" := by
  unfold fetch_fred_data at hok
  cases k with
  | false =>
    simp only [Bool.not_false, if_pos] at hok
    cases hok
    intro p hp
    cases hp
  | true =>
    simp only [Bool.not_true] at hok
    rw [if_neg (by simp)] at hok
    cases h with
    | requestError => cases hok; intro p hp; cases hp
    | jsonError => cases hok; intro p hp; cases hp
    | ok l =>
      intro p hp
      exact ⟨l, rfl, fredObsLoop_mem sid l pts hok p hp⟩

/-- Witness for `C9_placeholder_filtered`: on `fredObsW` the adapter emits
exactly the parsed non-placeholder point, which traces back to its raw
observation. -/
theorem C9_placeholder_filtered_witness :
    ∃ l, FredHttp.ok fredObsW = FredHttp.ok l ∧ ∃ o ∈ l, o.value ≠ "." ∧
      o.date = fredPtW.date ∧ pyFloatVal o.value = some fredPtW.value ∧
      fredPtW.series_id = "UNRATE" ∧ fredPtW.source = "FRED" :=
  C9_placeholder_filtered true (FredHttp.ok fredObsW) "UNRATE" [fredPtW] rfl
    fredPtW (List.mem_cons_self _ _)

/-- Appending to the same string on the left is injective. -/
theorem strAppend_left_cancel (a b c : String) (h : a ++ b = a ++ c) : b = c := by
  apply String.ext
  have hd := congrArg String.data h
  simp only [String.data_append] at hd
  exact List.append_cancel_left hd

/-- The cache key of a truthy (non-empty) filter value. -/
theorem usCacheKey_some (i : String) (hne : i ≠ "") :
    usCacheKey (some i) = "us_data_" ++ i := by
  simp [usCacheKey, hne]

/-- Only a request filtered by exactly `i` writes the cache key of a non-empty
filter value `i` that differs from `"all"`. -/
theorem usCacheKey_eq_unknown (i : String) (hne : i ≠ "") (hall : i ≠ "all")
    (ind : Option String) (h : usCacheKey ind = usCacheKey (some i)) : ind = some i := by
  rw [usCacheKey_some i hne] at h
  cases ind with
  | none =>
    exfalso
    have h' : "us_data_" ++ "all" = "us_data_" ++ i := h
    exact hall (strAppend_left_cancel _ _ _ h').symm
  | some s =>
    by_cases hs : s = ""
    · exfalso
      subst hs
      have h' : "us_data_" ++ "all" = "us_data_" ++ i := h
      exact hall (strAppend_left_cancel _ _ _ h').symm
    · rw [usCacheKey_some s hs] at h
      rw [strAppend_left_cancel _ _ _ h]

/-- A cache hit comes from a stored, unexpired entry. -/
theorem get_cached_data_some (cache : List (String × CacheEntry)) (key : String)
    (now : Nat) (r : UsResponse) (h : get_cached_data cache key now = some r) :
    ∃ e, cache.lookup key = some e ∧ e.data = r := by
  unfold get_cached_data at h
  cases hl : cache.lookup key with
  | none => rw [hl] at h; cases h
  | some e =>
    rw [hl] at h
    have h' : (if now < e.expiry then some e.data else none) = some r := h
    by_cases ht : now < e.expiry
    · rw [if_pos ht] at h'
      cases h'
      exact ⟨e, rfl, rfl⟩
    · rw [if_neg ht] at h'; cases h' 

/-- A truthy filter value matching no catalog key makes the accumulation loop
skip every entry. -/
theorem collectUsData_unknown (blob : String → Option (List GcsItem)) (i : String)
    (hne : i ≠ "") (l : List (String × SeriesInfo)) (hunk : ∀ p ∈ l, i ≠ p.1) :
    collectUsData blob (some i) l = [] := by
  induction l with
  | nil => rfl
  | cons x xs ih =>
    have hik : i ≠ x.1 := hunk x (List.mem_cons_self _ _)
    rcases x with ⟨key, info⟩
    have hskip : skipKey (some i) key = true := by
      simp only [skipKey]
      rw [if_neg hne, if_neg (fun e => hik e)]
    simp only [collectUsData, hskip, if_true]
    exact ih (fun p hp => hunk p (List.mem_cons_of_mem _ hp))

/-- After one endpoint call the cache is unchanged (hit) or gains exactly the
freshly computed response under the request's cache key (miss). -/
theorem get_us_snd (blob : String → Option (List GcsItem))
    (c : List (String × CacheEntry)) (now : Nat) (ind : Option String) :
    (get_us_economic_data blob c now ind).2 = c ∨
    (get_us_economic_data blob c now ind).2 =
      (usCacheKey ind,
        ⟨⟨"success", sortUsDesc (collectUsData blob ind FRED_SERIES_MAP)⟩,
         now + CACHE_TTL_SECONDS⟩) :: c := by
  unfold get_us_economic_data
  cases get_cached_data c (usCacheKey ind) now with
  | some r => left; rfl
  | none => right; rfl

/-- Invariant of every reachable cache: an entry stored under the cache key of
a non-empty, non-`"all"` filter value that matches no catalog key holds the
empty success response. -/
theorem reachable_unknown_entry (i : String) (hne : i ≠ "") (hall : i ≠ "all")
    (hunk : ∀ p ∈ FRED_SERIES_MAP, i ≠ p.1)
    (cache : List (String × CacheEntry)) (hre : ReachableCache cache) :
    ∀ e, cache.lookup (usCacheKey (some i)) = some e → e.data = ⟨"success", []⟩ := by
  induction hre with
  | start => intro e he; cases he
  | step blob now ind c hc ih =>
    intro e he
    rcases get_us_snd blob c now ind with h2 | h2
    · rw [h2] at he
      exact ih e he
    · rw [h2] at he
      by_cases hk : usCacheKey (some i) = usCacheKey ind
      · have hind : ind = some i := usCacheKey_eq_unknown i hne hall ind hk.symm
        subst hind
        simp only [List.lookup, beq_self_eq_true] at he
        cases he
        simp only
        rw [collectUsData_unknown blob i hne FRED_SERIES_MAP hunk]
        rfl
      · have hbeq : (usCacheKey (some i) == usCacheKey ind) = false := by
          simpa using hk
        simp only [List.lookup, hbeq] at he
        exact ih e he

/-- **C7, counterexample.** The claim quantifies over every filter value that
matches no catalog key, but two such values break it. The empty string is
falsy in the guard at line 99, so it behaves like no filter and returns all
stored data under a success status; and `"all"` shares the cache key
`us_data_all` with unfiltered requests, so within the TTL it is served their
cached full response. Both responses carry non-empty data instead of the
claimed empty list. -/
theorem C7_counterexample :
    "" ∉ FRED_SERIES_MAP.map Prod.fst ∧
    "all" ∉ FRED_SERIES_MAP.map Prod.fst ∧
    (get_us_economic_data blobOne [] 0 (some "")).1.data ≠ [] ∧
    (get_us_economic_data blobOne ((get_us_economic_data blobOne [] 0 none).2)
        5 (some "all")).1.data ≠ [] :=
  ⟨by decide, by decide, by decide, by decide⟩

/-- **C7, amended.** For every indicator filter value that is non-empty,
differs from the literal `"all"`, and matches no catalog key, the query
endpoint — run against any blob store, at any time, on any cache reachable
from the empty process-start cache — returns the envelope
`{status:"success", data:[]}`: an empty data list under a success status,
never an error response. (The empty-string filter is falsy and behaves like no
filter; the filter `"all"` shares the unfiltered requests' cache key and can
be served their cached full response.) -/
theorem C7_unknown_indicator (blob : String → Option (List GcsItem))
    (cache : List (String × CacheEntry)) (now : Nat) (i : String)
    (hre : ReachableCache cache) (hne : i ≠ "") (hall : i ≠ "all")
    (hunk : ∀ p ∈ FRED_SERIES_MAP, i ≠ p.1) :
    (get_us_economic_data blob cache now (some i)).1 = ⟨"success", []⟩ := by
  unfold get_us_economic_data
  cases hcd : get_cached_data cache (usCacheKey (some i)) now with
  | some r =>
    obtain ⟨e, hl, hed⟩ := get_cached_data_some cache _ now r hcd
    have hdata := reachable_unknown_entry i hne hall hunk cache hre e hl
    show r = ⟨"success", []⟩
    rw [← hed, hdata]
  | none =>
    show (⟨"success", sortUsDesc (collectUsData blob (some i) FRED_SERIES_MAP)⟩ : UsResponse) =
      ⟨"success", []⟩
    rw [collectUsData_unknown blob i hne FRED_SERIES_MAP hunk]
    rfl

/-- Witness for `C7_unknown_indicator` at a concrete unknown filter value on
the empty cache. -/
theorem C7_unknown_indicator_witness :
    (get_us_economic_data (fun _ => none) [] 0 (some "us_gdp_growth")).1 =
      ⟨"success", []⟩ :=
  C7_unknown_indicator (fun _ => none) [] 0 "us_gdp_growth" ReachableCache.start
    (by decide) (by decide) (by decide)

/-- Evaluation of the whole ingestion run when both FRED fetches return
normally: the summary holds exactly one record per catalog key, in catalog
order, and each record is computed from that key's own fetch and upload
outcome alone. -/
theorem ingest_eval (env : IngestEnv) (d₁ d₂ : List FredPoint)
    (h₁ : fetch_fred_data env.fredApiKeySet (env.fredHttp "UNRATE") "UNRATE" = .ok d₁)
    (h₂ : fetch_fred_data env.fredApiKeySet (env.fredHttp "CPIAUCSL") "CPIAUCSL" = .ok d₂) :
    (ingest_economic_data env).1 = .ok
      [("US_UNEMPLOYMENT_RATE", (fredKeyStep env "US_UNEMPLOYMENT_RATE" d₁).1),
       ("US_CPI", (fredKeyStep env "US_CPI" d₂).1),
       ("EU_HICP", (ecbKeyStep env "EU_HICP"
          (fetch_ecb_data (env.ecbHttp "ICP" "M.U2.N.000000.4.ANR")
            "ICP" "M.U2.N.000000.4.ANR")).1),
       ("EU_EUR_USD_FX_RATE", (ecbKeyStep env "EU_EUR_USD_FX_RATE"
          (fetch_ecb_data (env.ecbHttp "EXR" "D.USD.EUR.SP00.A")
            "EXR" "D.USD.EUR.SP00.A")).1)] := by
  simp only [ingest_economic_data, fredLoop, FRED_SERIES, ecbLoop, ECB_SERIES, h₁, h₂]
  rfl

/-- If the first FRED fetch raises, the whole trigger aborts with that
exception and performs no writes. -/
theorem ingest_first_error (env : IngestEnv) (e : PyErr)
    (h₁ : fetch_fred_data env.fredApiKeySet (env.fredHttp "UNRATE") "UNRATE" = .error e) :
    ingest_economic_data env = (.error e, []) := by
  simp only [ingest_economic_data, fredLoop, FRED_SERIES, h₁]

/-- If the second FRED fetch raises (the first returning normally), the whole
trigger aborts with that exception; only the first key's write survives. -/
theorem ingest_second_error (env : IngestEnv) (d₁ : List FredPoint) (e : PyErr)
    (h₁ : fetch_fred_data env.fredApiKeySet (env.fredHttp "UNRATE") "UNRATE" = .ok d₁)
    (h₂ : fetch_fred_data env.fredApiKeySet (env.fredHttp "CPIAUCSL") "CPIAUCSL" = .error e) :
    (ingest_economic_data env).1 = .error e := by
  simp only [ingest_economic_data, fredLoop, FRED_SERIES, h₁, h₂]

/-- **C8, counterexample.** The claim says the trigger always returns HTTP 200
with one record per key, one key's fetch failure never aborting the rest. But
`float(obs['value'])` at line 94 is covered by no handler in
`fetch_fred_data`: a FRED observation whose value is `"n/a"` (not the `"."`
placeholder) raises an uncaught `ValueError`, the trigger aborts before
processing any further key, nothing is uploaded, and Flask answers HTTP 500
rather than a 200 summary. -/
theorem C8_counterexample :
    pyFloatVal "n/a" = none ∧
    ingest_economic_data envBadValue = (.error .valueError, []) :=
  ⟨rfl, ingest_first_error envBadValue .valueError rfl⟩

/-- **C8, amended.** Provided every FRED fetch returns normally — network and
JSON-decode failures are handled inside the adapters and yield empty lists,
but an unparsable numeric value in a FRED response raises an uncaught
`ValueError` that aborts the whole trigger — the ingestion trigger returns
HTTP 200 with a summary containing exactly one status record per catalog key,
each key's record determined only by its own fetch and upload outcome; in
particular a key whose fetch yields no data is recorded as `failed_fetch`
while every other key is still processed and can still succeed. -/
theorem C8_per_key_isolation (env : IngestEnv) (d₁ d₂ : List FredPoint)
    (h₁ : fetch_fred_data env.fredApiKeySet (env.fredHttp "UNRATE") "UNRATE" = .ok d₁)
    (h₂ : fetch_fred_data env.fredApiKeySet (env.fredHttp "CPIAUCSL") "CPIAUCSL" = .ok d₂) :
    (ingest_economic_data env).1 = .ok
      [("US_UNEMPLOYMENT_RATE", (fredKeyStep env "US_UNEMPLOYMENT_RATE" d₁).1),
       ("US_CPI", (fredKeyStep env "US_CPI" d₂).1),
       ("EU_HICP", (ecbKeyStep env "EU_HICP"
          (fetch_ecb_data (env.ecbHttp "ICP" "M.U2.N.000000.4.ANR")
            "ICP" "M.U2.N.000000.4.ANR")).1),
       ("EU_EUR_USD_FX_RATE", (ecbKeyStep env "EU_EUR_USD_FX_RATE"
          (fetch_ecb_data (env.ecbHttp "EXR" "D.USD.EUR.SP00.A")
            "EXR" "D.USD.EUR.SP00.A")).1)] ∧
    (∀ name, (fredKeyStep env name []).1 =
      .failed_fetch ("No data fetched from FRED for " ++ name ++ " or API error.")) :=
  ⟨ingest_eval env d₁ d₂ h₁ h₂, fun _ => rfl⟩

/-- Witness for `C8_per_key_isolation`: in `envOneFailedFetch` the `UNRATE`
fetch fails and is recorded as `failed_fetch`, while the other three keys are
still processed and succeed. -/
theorem C8_per_key_isolation_witness :
    (ingest_economic_data envOneFailedFetch).1 = .ok
      [("US_UNEMPLOYMENT_RATE", .failed_fetch
          "No data fetched from FRED for US_UNEMPLOYMENT_RATE or API error."),
       ("US_CPI", .success 1 "economic_data/fred/us_cpi.json"),
       ("EU_HICP", .success 2 "economic_data/ecb/eu_hicp.json"),
       ("EU_EUR_USD_FX_RATE", .success 2 "economic_data/ecb/eu_eur_usd_fx_rate.json")] :=
  ((C8_per_key_isolation envOneFailedFetch []
      [⟨"2020-01-01", .fin (decValue false ['2'] 0 0), "CPIAUCSL", "FRED"⟩] rfl rfl).1).trans (by rfl)

/-- Every successful GCS write of the FRED half of the loop belongs to a
catalog entry whose fetch returned a non-empty point list. -/
theorem fredLoop_writes_mem (env : IngestEnv) (l : List (String × String)) (p : String)
    (hp : p ∈ (fredLoop env l).2) :
    ∃ nm sid d, (nm, sid) ∈ l ∧
      fetch_fred_data env.fredApiKeySet (env.fredHttp sid) sid = .ok d ∧
      d ≠ [] ∧ p = fredPath nm := by
  induction l with
  | nil => simp [fredLoop] at hp
  | cons x xs ih =>
    rcases x with ⟨nm, sid⟩
    cases hf : fetch_fred_data env.fredApiKeySet (env.fredHttp sid) sid with
    | error e =>
      simp only [fredLoop, hf] at hp
      cases hp
    | ok d =>
      simp only [fredLoop, hf] at hp
      rcases List.mem_append.mp hp with h | h
      · cases d with
        | nil => simp [fredKeyStep] at h
        | cons a as =>
          by_cases hu : upload_to_gcs env (fredPath nm) = true
          · simp only [fredKeyStep, hu, if_true] at h
            rcases List.mem_singleton.mp h with rfl
            exact ⟨nm, sid, a :: as, List.mem_cons_self _ _, hf, by simp, rfl⟩
          · simp only [fredKeyStep, hu, if_false] at h
            cases h
      · obtain ⟨nm', sid', d', hm, hok, hne, hpe⟩ := ih h
        exact ⟨nm', sid', d', List.mem_cons_of_mem _ hm, hok, hne, hpe⟩

/-- Every successful GCS write of the ECB half of the loop belongs to a
catalog entry whose fetch returned a non-empty point list. -/
theorem ecbLoop_writes_mem (env : IngestEnv) (l : List (String × String × String)) (p : String)
    (hp : p ∈ (ecbLoop env l).2) :
    ∃ nm fr kv, (nm, fr, kv) ∈ l ∧
      fetch_ecb_data (env.ecbHttp fr kv) fr kv ≠ [] ∧ p = ecbPath nm := by
  induction l with
  | nil => simp [ecbLoop] at hp
  | cons x xs ih =>
    rcases x with ⟨nm, fr, kv⟩
    simp only [ecbLoop] at hp
    rcases List.mem_append.mp hp with h | h
    · cases hd : fetch_ecb_data (env.ecbHttp fr kv) fr kv with
      | nil => rw [hd] at h; simp [ecbKeyStep] at h
      | cons a as =>
        rw [hd] at h
        by_cases hu : upload_to_gcs env (ecbPath nm) = true
        · simp only [ecbKeyStep, hu, if_true] at h
          rcases List.mem_singleton.mp h with rfl
          exact ⟨nm, fr, kv, List.mem_cons_self _ _, by rw [hd]; simp, rfl⟩
        · simp only [ecbKeyStep, hu, if_false] at h
          cases h
    · obtain ⟨nm', fr', kv', hm, hne, hpe⟩ := ih h
      exact ⟨nm', fr', kv', List.mem_cons_of_mem _ hm, hne, hpe⟩

/-- Every successful GCS write of a whole ingestion run belongs to a catalog
key whose fetch returned a non-empty point list. -/
theorem ingest_writes_mem (env : IngestEnv) (p : String)
    (hp : p ∈ (ingest_economic_data env).2) :
    (∃ nm sid d, (nm, sid) ∈ FRED_SERIES ∧
      fetch_fred_data env.fredApiKeySet (env.fredHttp sid) sid = .ok d ∧
      d ≠ [] ∧ p = fredPath nm) ∨
    (∃ nm fr kv, (nm, fr, kv) ∈ ECB_SERIES ∧
      fetch_ecb_data (env.ecbHttp fr kv) fr kv ≠ [] ∧ p = ecbPath nm) := by
  unfold ingest_economic_data at hp
  cases hf : (fredLoop env FRED_SERIES).1 with
  | error e =>
    rw [hf] at hp
    exact Or.inl (fredLoop_writes_mem env _ p hp)
  | ok s =>
    rw [hf] at hp
    rcases List.mem_append.mp hp with h | h
    · exact Or.inl (fredLoop_writes_mem env _ p h)
    · exact Or.inr (ecbLoop_writes_mem env _ p h)

/-- Inversion of a successful ingestion run: both FRED fetches returned
normally and the summary is the four catalog records in order. -/
theorem ingest_ok_shape (env : IngestEnv) (s : List (String × IngestStatus))
    (hs : (ingest_economic_data env).1 = .ok s) :
    ∃ d₁ d₂, fetch_fred_data env.fredApiKeySet (env.fredHttp "UNRATE") "UNRATE" = .ok d₁ ∧
      fetch_fred_data env.fredApiKeySet (env.fredHttp "CPIAUCSL") "CPIAUCSL" = .ok d₂ ∧
      s = [("US_UNEMPLOYMENT_RATE", (fredKeyStep env "US_UNEMPLOYMENT_RATE" d₁).1),
           ("US_CPI", (fredKeyStep env "US_CPI" d₂).1),
           ("EU_HICP", (ecbKeyStep env "EU_HICP"
              (fetch_ecb_data (env.ecbHttp "ICP" "M.U2.N.000000.4.ANR")
                "ICP" "M.U2.N.000000.4.ANR")).1),
           ("EU_EUR_USD_FX_RATE", (ecbKeyStep env "EU_EUR_USD_FX_RATE"
              (fetch_ecb_data (env.ecbHttp "EXR" "D.USD.EUR.SP00.A")
                "EXR" "D.USD.EUR.SP00.A")).1)] := by
  cases hf1 : fetch_fred_data env.fredApiKeySet (env.fredHttp "UNRATE") "UNRATE" with
  | error e =>
    rw [ingest_first_error env e hf1] at hs
    simp at hs
  | ok d₁ =>
    cases hf2 : fetch_fred_data env.fredApiKeySet (env.fredHttp "CPIAUCSL") "CPIAUCSL" with
    | error e =>
      rw [ingest_second_error env d₁ e hf1 hf2] at hs
      simp at hs
    | ok d₂ =>
      rw [ingest_eval env d₁ d₂ hf1 hf2] at hs
      injection hs with h
      exact ⟨d₁, d₂, rfl, rfl, h.symm⟩

/-- **C10.** At the orchestration boundary a fetch that completes without
error but yields an empty point list is treated exactly like a fetch failure:
for every catalog key (FRED or ECB) whose adapter call returns zero points,
nothing is written to the blob store for that key, and whenever the trigger
returns its summary the key's record is `{status:"failed_fetch"}`. -/
theorem C10_empty_fetch_failed (env : IngestEnv) :
    (∀ name sid, (name, sid) ∈ FRED_SERIES →
      fetch_fred_data env.fredApiKeySet (env.fredHttp sid) sid = .ok [] →
      fredPath name ∉ (ingest_economic_data env).2 ∧
      ∀ s, (ingest_economic_data env).1 = .ok s →
        s.lookup name = some (.failed_fetch
          ("No data fetched from FRED for " ++ name ++ " or API error."))) ∧
    (∀ name fr kv, (name, fr, kv) ∈ ECB_SERIES →
      fetch_ecb_data (env.ecbHttp fr kv) fr kv = [] →
      ecbPath name ∉ (ingest_economic_data env).2 ∧
      ∀ s, (ingest_economic_data env).1 = .ok s →
        s.lookup name = some (.failed_fetch
          ("No data fetched from ECB for " ++ name ++ " or API error."))) := by
  constructor
  · intro name sid hmem hfe
    have hmem' : (name = "US_UNEMPLOYMENT_RATE" ∧ sid = "UNRATE") ∨
        (name = "US_CPI" ∧ sid = "CPIAUCSL") := by
      simpa [FRED_SERIES] using hmem
    constructor
    · intro hp
      rcases ingest_writes_mem env _ hp with
        ⟨nm', sid', d', hm', hok', hne', hpe⟩ | ⟨nm', fr', kv', hm', hne', hpe⟩
      · have hm'' : (nm' = "US_UNEMPLOYMENT_RATE" ∧ sid' = "UNRATE") ∨
            (nm' = "US_CPI" ∧ sid' = "CPIAUCSL") := by
          simpa [FRED_SERIES] using hm'
        rcases hmem' with ⟨rfl, rfl⟩ | ⟨rfl, rfl⟩ <;>
          rcases hm'' with ⟨rfl, rfl⟩ | ⟨rfl, rfl⟩
        · have h0 := hfe.symm.trans hok'
          injection h0 with h0
          exact hne' h0.symm
        · exact absurd hpe (by decide)
        · exact absurd hpe (by decide)
        · have h0 := hfe.symm.trans hok'
          injection h0 with h0
          exact hne' h0.symm
      · have hm'' : (nm' = "EU_HICP" ∧ fr' = "ICP" ∧ kv' = "M.U2.N.000000.4.ANR") ∨
            (nm' = "EU_EUR_USD_FX_RATE" ∧ fr' = "EXR" ∧ kv' = "D.USD.EUR.SP00.A") := by
          simpa [ECB_SERIES] using hm'
        rcases hmem' with ⟨rfl, rfl⟩ | ⟨rfl, rfl⟩ <;>
          rcases hm'' with ⟨rfl, rfl, rfl⟩ | ⟨rfl, rfl, rfl⟩ <;>
          exact absurd hpe (by decide)
    · intro s hs
      obtain ⟨d₁, d₂, hf1, hf2, rfl⟩ := ingest_ok_shape env s hs
      rcases hmem' with ⟨rfl, rfl⟩ | ⟨rfl, rfl⟩
      · have hd : d₁ = [] := by simpa using hf1.symm.trans hfe
        subst hd
        simp [List.lookup, fredKeyStep]
      · have hd : d₂ = [] := by simpa using hf2.symm.trans hfe
        subst hd
        simp [List.lookup, fredKeyStep]
  · intro name fr kv hmem hfe
    have hmem' : (name = "EU_HICP" ∧ fr = "ICP" ∧ kv = "M.U2.N.000000.4.ANR") ∨
        (name = "EU_EUR_USD_FX_RATE" ∧ fr = "EXR" ∧ kv = "D.USD.EUR.SP00.A") := by
      simpa [ECB_SERIES] using hmem
    constructor
    · intro hp
      rcases ingest_writes_mem env _ hp with
        ⟨nm', sid', d', hm', hok', hne', hpe⟩ | ⟨nm', fr', kv', hm', hne', hpe⟩
      · have hm'' : (nm' = "US_UNEMPLOYMENT_RATE" ∧ sid' = "UNRATE") ∨
            (nm' = "US_CPI" ∧ sid' = "CPIAUCSL") := by
          simpa [FRED_SERIES] using hm'
        rcases hmem' with ⟨rfl, rfl, rfl⟩ | ⟨rfl, rfl, rfl⟩ <;>
          rcases hm'' with ⟨rfl, rfl⟩ | ⟨rfl, rfl⟩ <;>
          exact absurd hpe (by decide)
      · have hm'' : (nm' = "EU_HICP" ∧ fr' = "ICP" ∧ kv' = "M.U2.N.000000.4.ANR") ∨
            (nm' = "EU_EUR_USD_FX_RATE" ∧ fr' = "EXR" ∧ kv' = "D.USD.EUR.SP00.A") := by
          simpa [ECB_SERIES] using hm'
        rcases hmem' with ⟨rfl, rfl, rfl⟩ | ⟨rfl, rfl, rfl⟩ <;>
          rcases hm'' with ⟨rfl, rfl, rfl⟩ | ⟨rfl, rfl, rfl⟩
        · exact hne' hfe
        · exact absurd hpe (by decide)
        · exact absurd hpe (by decide)
        · exact hne' hfe
    · intro s hs
      obtain ⟨d₁, d₂, hf1, hf2, rfl⟩ := ingest_ok_shape env s hs
      rcases hmem' with ⟨rfl, rfl, rfl⟩ | ⟨rfl, rfl, rfl⟩
      · simp [List.lookup, hfe, ecbKeyStep]
      · simp [List.lookup, hfe, ecbKeyStep]

/-- Witness for `C10_empty_fetch_failed`: in `envOneFailedFetch` the `UNRATE`
fetch returns zero points; its key is recorded as `failed_fetch` and its blob
path is never written. -/
theorem C10_empty_fetch_failed_witness :
    fredPath "US_UNEMPLOYMENT_RATE" ∉ (ingest_economic_data envOneFailedFetch).2 ∧
    [("US_UNEMPLOYMENT_RATE", IngestStatus.failed_fetch
        "No data fetched from FRED for US_UNEMPLOYMENT_RATE or API error."),
     ("US_CPI", .success 1 "economic_data/fred/us_cpi.json"),
     ("EU_HICP", .success 2 "economic_data/ecb/eu_hicp.json"),
     ("EU_EUR_USD_FX_RATE", .success 2 "economic_data/ecb/eu_eur_usd_fx_rate.json")].lookup
        "US_UNEMPLOYMENT_RATE" =
      some (.failed_fetch "No data fetched from FRED for US_UNEMPLOYMENT_RATE or API error.") :=
  ⟨(((C10_empty_fetch_failed envOneFailedFetch).1 "US_UNEMPLOYMENT_RATE" "UNRATE"
      (by decide) rfl)).1,
   (((C10_empty_fetch_failed envOneFailedFetch).1 "US_UNEMPLOYMENT_RATE" "UNRATE"
      (by decide) rfl)).2 _ (by rfl)⟩
